import Mathlib

/-
  Verification development for the telegram-chatgpt-bot repository.

  The Go sources (bot.go, database.go, main.go) are shallowly embedded below.
  External services (the Telegram bot API, the OpenAI completion API, the
  document download, the geektoken tokenizer and the SQLite/GORM engine) are
  modelled as a deterministic environment record `Env`; each outbound call the
  program performs is recorded as an `Effect` value, so every handler is a pure
  function from its inputs and the environment to the list of effects it
  performs, in program order.  Go machine integers are modelled as `Int`
  (ids) and `Nat` (token counts); Go `len` on strings, which counts UTF-8
  bytes, is modelled by `goLen` below.
-/

namespace TgBot

/-- Telegram user (tg.User): id, optional username, first name, bot flag. -/
structure User where
  id : Int
  username : Option String
  firstName : String
  isBot : Bool
  deriving DecidableEq

/-- Telegram chat (tg.Chat): only the id is used by the program. -/
structure Chat where
  id : Int
  deriving DecidableEq

/-- Telegram document attachment (tg.Document): only the file id is used. -/
structure Document where
  fileID : String
  deriving DecidableEq

/-- Telegram message (tg.Message), with the fields the program reads.
    `replyToMessage` makes the type recursive, hence an inductive. -/
inductive Message where
  | mk (messageID : Int) (chat : Chat) (fromUser : User) (viaBot : Option User)
       (text : Option String) (document : Option Document)
       (replyToMessage : Option Message)

def Message.messageID : Message → Int
  | .mk i _ _ _ _ _ _ => i

def Message.chat : Message → Chat
  | .mk _ c _ _ _ _ _ => c

def Message.fromUser : Message → User
  | .mk _ _ f _ _ _ _ => f

def Message.viaBot : Message → Option User
  | .mk _ _ _ v _ _ _ => v

def Message.text : Message → Option String
  | .mk _ _ _ _ t _ _ => t

def Message.document : Message → Option Document
  | .mk _ _ _ _ _ d _ => d

def Message.replyToMessage : Message → Option Message
  | .mk _ _ _ _ _ _ r => r

/-- tg.Message.HasText: the Text field is non-nil. -/
def Message.hasText (m : Message) : Bool := m.text.isSome

/-- tg.Message.HasDocument: the Document field is non-nil. -/
def Message.hasDocument (m : Message) : Bool := m.document.isSome

/-- Telegram update (tg.Update), restricted to the two kinds the program
    inspects: Message and EditedMessage. -/
structure Update where
  message : Option Message
  editedMessage : Option Message

def Update.hasMessage (u : Update) : Bool := u.message.isSome

def Update.hasEditedMessage (u : Update) : Bool := u.editedMessage.isSome

/-- tg.Update.GetFrom, restricted to the modelled update kinds. -/
def Update.getFrom (u : Update) : Option User :=
  match u.message with
  | some m => some m.fromUser
  | none =>
    match u.editedMessage with
    | some m => some m.fromUser
    | none => none

/-- openai.ChatMessage role. -/
inductive ChatRole where
  | system
  | user
  | assistant
  deriving DecidableEq

def roleString : ChatRole → String
  | .system => "system"
  | .user => "user"
  | .assistant => "assistant"

/-- openai.ChatMessage: role plus optional content. -/
structure ChatMessage where
  role : ChatRole
  content : Option String
  deriving DecidableEq

/-- openai.NewChatUserMessage. -/
def newChatUserMessage (t : String) : ChatMessage :=
  { role := ChatRole.user, content := some t }

/-- openai.NewChatAssistantMessage. -/
def newChatAssistantMessage (t : String) : ChatMessage :=
  { role := ChatRole.assistant, content := some t }

/-- One choice of an openai chat completion response. -/
structure ChatChoice where
  message : ChatMessage
  deriving DecidableEq

/-- Token usage reported by the completion API. -/
structure ChatUsage where
  promptTokens : Nat
  completionTokens : Nat
  deriving DecidableEq

/-- openai chat completion response: choices and usage. -/
structure ChatCompletion where
  choices : List ChatChoice
  usage : ChatUsage
  deriving DecidableEq

/-- Generated struct of database.go: the result record saved with a prompt. -/
structure Generated where
  successful : Bool
  text : String
  tokens : Nat
  deriving DecidableEq

/-- Prompt struct of database.go: one saved prompt record; the nested
    `result` field mirrors the `Result Generated` field, so a prompt and its
    result are one value saved by one call. -/
structure Prompt where
  chatID : Int
  userID : Int
  username : String
  text : String
  tokens : Nat
  result : Generated
  deriving DecidableEq

/-- config struct of bot.go. -/
structure Config where
  telegramBotToken : String
  openAIAPIKey : String
  openAIOrganizationID : String
  openAIModel : String
  requestLogsDBFilepath : String
  allowedTelegramUsers : List String
  verbose : Bool
  deriving DecidableEq

/-- An outbound action performed by the program, in program order.
    `panicNilError` marks the point where the Go code would dereference a nil
    error (calling Error() on the nil err value), aborting the handler. -/
inductive Effect where
  | sendChatAction (chatID : Int)
  | createChatCompletion (model : String) (messages : List ChatMessage) (user : String)
  | sendMessage (chatID : Int) (text : String) (replyToMessageID : Option Int)
  | sendDocument (chatID : Int) (fileBytes : String) (replyToMessageID : Option Int)
      (caption : Option String)
  | savePrompt (prompt : Prompt)
  | logPrint (line : String)
  | panicNilError
  deriving DecidableEq

/-- Deterministic model of the external services the program calls.
    `getDocumentText` stands for bot.GetFile + the HTTP download + the byte
    decoding of the document (an external fetch); `createChatCompletion` is
    the OpenAI client call; the send oracles give the Ok flag of the
    corresponding Telegram API response; `encode` and `tokenizerReady` model
    the geektoken tokenizer singleton. -/
structure Env where
  getDocumentText : Document → Except String String
  createChatCompletion : String → List ChatMessage → String → Except String ChatCompletion
  sendMessageOk : Int → String → Option Int → Bool
  sendDocumentOk : Int → String → Option Int → Option String → Bool
  encode : String → Except String (List Int)
  tokenizerReady : Bool

/-- Constants of bot.go. -/
def chatCompletionModelDefault : String := "gpt-3.5-turbo"

def cmdStart : String := "/start"

def cmdCount : String := "/count"

def cmdStats : String := "/stats"

def cmdHelp : String := "/help"

def msgStart : String := "This bot will answer your messages with ChatGPT API :-)"

def msgTypeNotSupported : String := "Not a supported message type."

def msgDatabaseNotConfigured : String := "Database not configured. Set `db_filepath` in your config file."

def msgDatabaseEmpty : String := "Database is empty."

def msgNoResponse : String := "There was no response from OpenAI API."

def msgFailedConvert : String := "Failed to get usable chat messages from your input. See the server logs for more information."

def msgFailedSendFile : String := "Failed to send you the answer as a text file. See the server logs for more information."

def msgFailedSendText : String := "Failed to send you the answer as a text. See the server logs for more information."

def msgFailedGenerate : String := "Failed to generate an answer from OpenAI. See the server logs for more information."

/-- fmt.Sprintf msgTokenCount count chars. -/
def msgTokenCountStr (tokens chars : Nat) : String :=
  "<b>" ++ toString tokens ++ "</b> tokens in <b>" ++ toString chars ++
    "</b> chars <i>(cl100k_base)</i>"

/-- UTF-8 encoding of one character, as the list of its bytes (as Nat). -/
def charUTF8Bytes (c : Char) : List Nat :=
  let n := c.toNat
  if n < 128 then [n]
  else if n < 2048 then [192 + n / 64, 128 + n % 64]
  else if n < 65536 then [224 + n / 4096, 128 + n / 64 % 64, 128 + n % 64]
  else [240 + n / 262144, 128 + n / 4096 % 64, 128 + n / 64 % 64, 128 + n % 64]

/-- The UTF-8 bytes of a string: this is what a Go string holds. -/
def strBytes (s : String) : List Nat := (s.data.map charUTF8Bytes).flatten

/-- Go len() on a string: the number of UTF-8 bytes. -/
def goLen (s : String) : Nat := (strBytes s).length

/-- Is the byte a UTF-8 continuation byte. -/
def isCont (b : Nat) : Bool := 128 ≤ b && b ≤ 191

/-- Valid ranges of the first continuation byte of a 3-byte sequence
    (excluding overlong encodings and surrogates, as Go does). -/
def cont3Ok (b0 b1 : Nat) : Bool :=
  if b0 = 224 then 160 ≤ b1 && b1 ≤ 191
  else if b0 = 237 then 128 ≤ b1 && b1 ≤ 159
  else isCont b1

/-- Valid ranges of the first continuation byte of a 4-byte sequence
    (excluding overlong encodings and values above U+10FFFF, as Go does). -/
def cont4Ok (b0 b1 : Nat) : Bool :=
  if b0 = 240 then 144 ≤ b1 && b1 ≤ 191
  else if b0 = 244 then 128 ≤ b1 && b1 ≤ 143
  else isCont b1

/-- Length of the valid UTF-8 sequence starting at the head of the list
    (1 to 4), or 0 when the head byte does not start a valid sequence. -/
def utf8SeqLen (l : List Nat) : Nat :=
  match l with
  | [] => 0
  | b0 :: rest =>
    if b0 ≤ 127 then 1
    else if 194 ≤ b0 && b0 ≤ 223 then
      match rest with
      | b1 :: _ => if isCont b1 then 2 else 0
      | _ => 0
    else if 224 ≤ b0 && b0 ≤ 239 then
      match rest with
      | b1 :: b2 :: _ => if cont3Ok b0 b1 && isCont b2 then 3 else 0
      | _ => 0
    else if 240 ≤ b0 && b0 ≤ 244 then
      match rest with
      | b1 :: b2 :: b3 :: _ => if cont4Ok b0 b1 && isCont b2 && isCont b3 then 4 else 0
      | _ => 0
    else 0

/-- Decode one valid UTF-8 sequence (1 to 4 bytes) into its character. -/
def utf8DecodeChar (b : List Nat) : Char :=
  match b with
  | [b0] => Char.ofNat b0
  | [b0, b1] => Char.ofNat ((b0 - 192) * 64 + (b1 - 128))
  | [b0, b1, b2] => Char.ofNat ((b0 - 224) * 4096 + (b1 - 128) * 64 + (b2 - 128))
  | [b0, b1, b2, b3] =>
      Char.ofNat ((b0 - 240) * 262144 + (b1 - 128) * 4096 + (b2 - 128) * 64 + (b3 - 128))
  | _ => Char.ofNat 0

/-- Worker for the sanitizer, structurally recursive on a fuel counter so
    that it evaluates inside the kernel; each step consumes at least one
    byte, so a fuel of the list length is always enough. -/
def utf8SanitizeGo : Nat → List Nat → List Char
  | _, [] => []
  | 0, _ :: _ => []
  | fuel + 1, b0 :: rest =>
    let k := utf8SeqLen (b0 :: rest)
    if k = 0 then utf8SanitizeGo fuel rest
    else utf8DecodeChar ((b0 :: rest).take k) :: utf8SanitizeGo fuel (rest.drop (k - 1))

/-- strings.ToValidUTF8(s, "") at the byte level: decode the byte list,
    dropping one byte at a time on invalid input (as Go does); with the
    empty replacement string the dropped runs simply vanish. -/
def utf8Sanitize (l : List Nat) : List Char :=
  utf8SanitizeGo l.length l

/-- The username the allow-list check works with: the message sender if it
    has a username, else the edited-message sender if it has one, else the
    empty string (the Go zero value of the local `username` variable). -/
def updateUsername (update : Update) : String :=
  match update.message.bind (fun m => m.fromUser.username) with
  | some u => u
  | none =>
    match update.editedMessage.bind (fun m => m.fromUser.username) with
    | some u => u
    | none => ""

/-- isAllowed of bot.go: look the username up in the allowed-users set
    (the map built in runBot from conf.AllowedTelegramUsers). -/
def isAllowed (update : Update) (allowedUsers : List String) : Bool :=
  allowedUsers.contains (updateUsername update)

/-- usableMessageFromUpdate of bot.go. -/
def usableMessageFromUpdate (update : Update) : Option Message :=
  match update.message with
  | some m =>
    if m.hasText then some m
    else if m.hasDocument then some m
    else
      match update.editedMessage with
      | some em => if em.hasText then some em else none
      | none => none
  | none =>
    match update.editedMessage with
    | some em => if em.hasText then some em else none
    | none => none

/-- userName of bot.go. -/
def userName (user : User) : String :=
  match user.username with
  | some un => "@" ++ un ++ " (" ++ user.firstName ++ ")"
  | none => user.firstName

/-- userNameFromUpdate of bot.go. -/
def userNameFromUpdate (update : Update) : String :=
  match update.getFrom with
  | some u => userName u
  | none => "unknown"

/-- repliedToMessage of bot.go. -/
def repliedToMessage (message : Message) : Option Message :=
  message.replyToMessage

/-- convertMessage of bot.go: telegram message to openai chat message, none
    on error.  A message sent via a bot becomes an assistant message; the
    document branch fetches the document text (TrimSpace of the decoded
    bytes); on fetch failure the code logs and falls through to the user
    branch. -/
def convertMessage (env : Env) (message : Message) : Option ChatMessage :=
  let viaBotPart : Option ChatMessage :=
    match message.viaBot with
    | some vb =>
      if vb.isBot then
        match message.text with
        | some t => some (newChatAssistantMessage t)
        | none =>
          match message.document with
          | some d =>
            match env.getDocumentText d with
            | Except.ok bytes => some (newChatAssistantMessage bytes.trim)
            | Except.error _ => none
          | none => none
      else none
    | none => none
  match viaBotPart with
  | some cm => some cm
  | none =>
    match message.text with
    | some t => some (newChatUserMessage t)
    | none =>
      match message.document with
      | some d =>
        match env.getDocumentText d with
        | Except.ok bytes => some (newChatUserMessage bytes.trim)
        | Except.error _ => none
      | none => none

/-- chatMessagesFromTGMessage of bot.go: the converted reply-to parent (when
    present and convertible) followed by the converted message itself. -/
def chatMessagesFromTGMessage (env : Env) (message : Message) : List ChatMessage :=
  (match repliedToMessage message with
   | some replyTo =>
     match convertMessage env replyTo with
     | some cm => [cm]
     | none => []
   | none => []) ++
  (match convertMessage env message with
   | some cm => [cm]
   | none => [])

/-- send of bot.go: chat action, optional verbose log, the SendMessage call
    (with the reply-to id when given), and an error log when it fails. -/
def send (env : Env) (conf : Config) (message : String) (chatID : Int)
    (messageID : Option Int) : List Effect :=
  [Effect.sendChatAction chatID] ++
  (if conf.verbose then [Effect.logPrint ("[verbose] sending message: " ++ message)] else []) ++
  [Effect.sendMessage chatID message messageID] ++
  (if env.sendMessageOk chatID message messageID then []
   else [Effect.logPrint "failed to send message"])

/-- userAgent of bot.go. -/
def userAgent (userID : Int) : String :=
  "telegram-chatgpt-bot:" ++ toString userID

/-- messagesToPrompt of bot.go: join the role-tagged contents. -/
def messagesToPrompt (messages : List ChatMessage) : String :=
  String.intercalate "\n--------\n"
    (messages.filterMap fun m => m.content.map fun c => "[" ++ roleString m.role ++ "] " ++ c)

/-- savePromptAndResult of bot.go: when the log store is enabled, one
    SavePrompt call carrying the prompt record with its nested result
    record; a save error is only logged (folded into the effect). -/
def savePromptAndResult (dbEnabled : Bool) (chatID userID : Int) (username prompt : String)
    (promptTokens : Nat) (result : String) (resultTokens : Nat)
    (resultSuccessful : Bool) : List Effect :=
  if dbEnabled then
    [Effect.savePrompt
      { chatID := chatID, userID := userID, username := username, text := prompt,
        tokens := promptTokens,
        result := { successful := resultSuccessful, text := result, tokens := resultTokens } }]
  else []

/-- answer of bot.go: call the completion API once; on success extract the
    first choice (or the fixed placeholder when there is no choice), then
    send the answer inline when its byte length is at most 4096, else as a
    document whose caption is the sanitized first 128 bytes plus "...".
    In the two send-failure branches the Go code evaluates err.Error() on
    the nil err of the successful completion call, which panics before the
    save: this is the `panicNilError` effect. -/
def answer (env : Env) (conf : Config) (dbEnabled : Bool) (messages : List ChatMessage)
    (chatID userID : Int) (username : String) (messageID : Int) : List Effect :=
  let model := if conf.openAIModel = "" then chatCompletionModelDefault else conf.openAIModel
  [Effect.sendChatAction chatID, Effect.createChatCompletion model messages (userAgent userID)] ++
  match env.createChatCompletion model messages (userAgent userID) with
  | Except.ok response =>
    (if conf.verbose then [Effect.logPrint "[verbose] got response"] else []) ++
    [Effect.sendChatAction chatID] ++
    (let ans : String :=
      match response.choices with
      | c :: _ => (c.message.content).getD ""
      | [] => msgNoResponse
    (if conf.verbose then [Effect.logPrint ("[verbose] sending answer: " ++ ans)] else []) ++
    if goLen ans > 4096 then
      let caption := String.mk (utf8Sanitize ((strBytes ans).take 128)) ++ "..."
      [Effect.sendDocument chatID ans (some messageID) (some caption)] ++
      (if env.sendDocumentOk chatID ans (some messageID) (some caption) then
        savePromptAndResult dbEnabled chatID userID username (messagesToPrompt messages)
          response.usage.promptTokens ans response.usage.completionTokens true
      else
        [Effect.logPrint "failed to answer messages as file"] ++
        send env conf msgFailedSendFile chatID (some messageID) ++
        [Effect.panicNilError])
    else
      [Effect.sendMessage chatID ans (some messageID)] ++
      (if env.sendMessageOk chatID ans (some messageID) then
        savePromptAndResult dbEnabled chatID userID username (messagesToPrompt messages)
          response.usage.promptTokens ans response.usage.completionTokens true
      else
        [Effect.logPrint "failed to answer messages"] ++
        send env conf msgFailedSendText chatID (some messageID) ++
        [Effect.panicNilError]))
  | Except.error e =>
    [Effect.logPrint ("failed to create chat completion: " ++ e)] ++
    send env conf msgFailedGenerate chatID (some messageID) ++
    savePromptAndResult dbEnabled chatID userID username (messagesToPrompt messages)
      0 e 0 false

/-- handleMessage of bot.go: convert the message (with its reply-to parent)
    and answer, or log and notify the sender when no chat message could be
    converted. -/
def handleMessage (env : Env) (conf : Config) (dbEnabled : Bool) (update : Update)
    (message : Message) : List Effect :=
  let chatID := message.chat.id
  let userID := message.fromUser.id
  let messageID := message.messageID
  let messages := chatMessagesFromTGMessage env message
  if messages.length > 0 then
    answer env conf dbEnabled messages chatID userID (userNameFromUpdate update) messageID
  else
    [Effect.logPrint "no converted chat messages from update"] ++
    send env conf msgFailedConvert chatID (some messageID)

/-- The message-handler closure registered with bot.SetMessageHandler in
    runBot: reject (log only) when the update is not allowed, else handle
    the message. -/
def onMessage (env : Env) (conf : Config) (dbEnabled : Bool) (allowedUsers : List String)
    (update : Update) (message : Message) : List Effect :=
  if isAllowed update allowedUsers then
    handleMessage env conf dbEnabled update message
  else
    [Effect.logPrint ("message not allowed: " ++ userNameFromUpdate update)]

/-- The polling callback passed to bot.StartPollingUpdates in runBot: on a
    poll error just log; otherwise reject unallowed updates (log only), and
    for allowed updates send the unsupported-type reply when a usable
    message can be extracted, else do nothing. -/
def onPollingUpdate (env : Env) (conf : Config) (allowedUsers : List String)
    (update : Update) (pollErr : Option String) : List Effect :=
  match pollErr with
  | none =>
    if isAllowed update allowedUsers then
      match usableMessageFromUpdate update with
      | some message => send env conf msgTypeNotSupported message.chat.id (some message.messageID)
      | none => []
    else
      [Effect.logPrint ("not allowed: " ++ userNameFromUpdate update)]
  | some e => [Effect.logPrint ("failed to poll updates: " ++ e)]

/-- countTokens of bot.go: the lazily initialized tokenizer singleton is
    modelled by the env oracle (tokenizerReady is the outcome of
    GetTokenizerWithEncoding); on success the count is the length of the
    encoded token list. -/
def countTokens (env : Env) (text : String) : Except String Nat :=
  if env.tokenizerReady then
    match env.encode text with
    | Except.ok tokens => Except.ok tokens.length
    | Except.error e => Except.error e
  else Except.error "tokenizer is not initialized."

/-- One row of the log store as the stats queries see it: the prompt side
    (prompts table) and its generated result side (generateds table), with
    the creation time already formatted.  A database handle is `Option`
    (none when not configured or failed to open), holding the saved rows in
    insertion order. -/
structure PromptRow where
  createdAt : String
  chatID : Int
  tokens : Nat
  resultSuccessful : Bool
  resultTokens : Nat
  deriving DecidableEq

/-- retrieveStats of bot.go.  The SQL layer (SQLite through GORM) is
    modelled by total functions over the stored rows: `First` fails exactly
    on an empty table (gorm.ErrRecordNotFound), while the aggregate
    COUNT/SUM queries always return one row (COUNT of an empty table is 0,
    and GORM scans a NULL SUM into a zero field through its
    pointer-of-pointer destinations, without error). -/
def retrieveStats (db : Option (List PromptRow)) : String :=
  match db with
  | none => msgDatabaseNotConfigured
  | some rows =>
    let sinceLines : List String :=
      match rows.head? with
      | some first => ["Since <i>" ++ first.createdAt ++ "</i>", ""]
      | none => []
    let chats := ((rows.map fun r => r.chatID).dedup).length
    let promptRows := rows.filter fun r => r.tokens > 0
    let succRows := rows.filter fun r => r.resultSuccessful
    let errRows := rows.filter fun r => !r.resultSuccessful
    let lines := sinceLines ++
      ["* Chats: <b>" ++ toString chats ++ "</b>",
       "* Prompts: <b>" ++ toString promptRows.length ++ "</b> (Total tokens: <b>" ++
         toString (promptRows.map fun r => r.tokens).sum ++ "</b>)",
       "* Completions: <b>" ++ toString succRows.length ++ "</b> (Total tokens: <b>" ++
         toString (succRows.map fun r => r.resultTokens).sum ++ "</b>)",
       "* Errors: <b>" ++ toString errRows.length ++ "</b>"]
    if lines.length > 0 then String.intercalate "\n" lines
    else msgDatabaseEmpty

/-- The /count command handler closure of bot.go. -/
def countCommandHandler (env : Env) (conf : Config) (allowedUsers : List String)
    (update : Update) (args : String) : List Effect :=
  if isAllowed update allowedUsers then
    match usableMessageFromUpdate update with
    | none => [Effect.logPrint "no usable message from update."]
    | some message =>
      let msg :=
        match countTokens env args with
        | Except.ok count => msgTokenCountStr count (goLen args)
        | Except.error e => e
      send env conf msg message.chat.id (some message.messageID)
  else
    [Effect.logPrint ("count command not allowed: " ++ userNameFromUpdate update)]

/-- The /stats command handler closure of bot.go. -/
def statsCommandHandler (env : Env) (conf : Config) (db : Option (List PromptRow))
    (allowedUsers : List String) (update : Update) : List Effect :=
  if isAllowed update allowedUsers then
    match usableMessageFromUpdate update with
    | none => [Effect.logPrint "no usable message from update."]
    | some message =>
      send env conf (retrieveStats db) message.chat.id (some message.messageID)
  else
    [Effect.logPrint ("stats command not allowed: " ++ userNameFromUpdate update)]

/-- The /start command handler closure of bot.go. -/
def startCommandHandler (env : Env) (conf : Config) (allowedUsers : List String)
    (update : Update) : List Effect :=
  if isAllowed update allowedUsers then
    match usableMessageFromUpdate update with
    | none => [Effect.logPrint "no usable message from update."]
    | some message => send env conf msgStart message.chat.id none
  else
    [Effect.logPrint ("start command not allowed: " ++ userNameFromUpdate update)]

/-- Whitespace as trimmed from command arguments. -/
def isSpaceChar (c : Char) : Bool :=
  c = ' ' || c = '\t' || c = '\n' || c = '\r'

/-- Trim whitespace from both ends of a character list. -/
def trimChars (l : List Char) : List Char :=
  ((l.dropWhile isSpaceChar).reverse.dropWhile isSpaceChar).reverse

/-- Modelled from the spec: the command dispatcher of the external
    telegram-bot-go library strips the command token and passes the
    trailing text, trimmed, to the handler ("accepts trailing text after
    the command token (trimmed) as the string to tokenize"). -/
def commandArgs (text cmd : String) : String :=
  String.mk (trimChars (text.data.drop cmd.length))

/-- Does the effect perform the outbound completion-API call. -/
def isCompletionCall : Effect → Bool
  | .createChatCompletion _ _ _ => true
  | _ => false

/-- Does the effect send anything user-visible to the chat
    (an inline message or a document). -/
def isReplyEffect : Effect → Bool
  | .sendMessage _ _ _ => true
  | .sendDocument _ _ _ _ => true
  | _ => false

/-- The prompt records saved by a run, in order. -/
def saveEffects (effs : List Effect) : List Prompt :=
  effs.filterMap fun e =>
    match e with
    | .savePrompt p => some p
    | _ => none

/-- The captions of the documents sent by a run, in order. -/
def docCaptions (effs : List Effect) : List (Option String) :=
  effs.filterMap fun e =>
    match e with
    | .sendDocument _ _ _ c => some c
    | _ => none

/- ------------------------------------------------------------------ -/
/- Helper lemmas                                                       -/
/- ------------------------------------------------------------------ -/

theorem utf8SanitizeGo_length_le : ∀ (fuel : Nat) (l : List Nat),
    (utf8SanitizeGo fuel l).length ≤ l.length := by
  intro fuel
  induction fuel with
  | zero => intro l; cases l <;> simp [utf8SanitizeGo]
  | succ n ih =>
    intro l
    cases l with
    | nil => simp [utf8SanitizeGo]
    | cons b0 rest =>
      rw [utf8SanitizeGo]
      split
      · exact le_trans (ih rest) (by simp)
      · have h := ih (rest.drop (utf8SeqLen (b0 :: rest) - 1))
        simp only [List.length_cons, List.length_drop] at h ⊢
        omega

/-- The sanitizer never produces more characters than it consumed bytes. -/
theorem utf8Sanitize_length_le (l : List Nat) : (utf8Sanitize l).length ≤ l.length :=
  utf8SanitizeGo_length_le l.length l

/-- The message handed to `send` is among its effects. -/
theorem mem_send_self (env : Env) (conf : Config) (m : String) (c : Int) (i : Option Int) :
    Effect.sendMessage c m i ∈ send env conf m c i := by
  simp [send]

/-- `send` never performs a completion-API call. -/
theorem filter_completion_send (env : Env) (conf : Config) (m : String) (c : Int)
    (i : Option Int) : (send env conf m c i).filter isCompletionCall = [] := by
  simp only [send]
  split <;> split <;> simp [isCompletionCall]

/-- In the long-answer branch exactly one document is sent, and its caption
    is the sanitized first 128 bytes of the answer followed by "...". -/
theorem docCaptions_answer_long (env : Env) (conf : Config) (dbEnabled : Bool)
    (messages : List ChatMessage) (chatID userID messageID : Int) (username : String)
    (resp : ChatCompletion) (r : ChatRole) (ans : String)
    (hc : env.createChatCompletion
        (if conf.openAIModel = "" then chatCompletionModelDefault else conf.openAIModel)
        messages (userAgent userID) = Except.ok resp)
    (hch : resp.choices = [⟨⟨r, some ans⟩⟩])
    (hgt : goLen ans > 4096) :
    docCaptions (answer env conf dbEnabled messages chatID userID username messageID) =
      [some (String.mk (utf8Sanitize ((strBytes ans).take 128)) ++ "...")] := by
  simp only [answer, hc, hch, docCaptions]
  simp only [Option.getD_some, hgt, ite_true, if_true]
  simp only [List.filterMap_append]
  split <;> split <;> simp [send, savePromptAndResult, List.filterMap_append] <;>
    split <;> simp
  all_goals rintro a (⟨-, rfl⟩ | rfl) <;> rfl

/-- A message carrying text always converts, and the converted chat message
    carries that text as its content (as user or as assistant). -/
theorem convertMessage_of_text (env : Env) (m : Message) (t : String) (ht : m.text = some t) :
    ∃ cm, convertMessage env m = some cm ∧ cm.content = some t := by
  simp only [convertMessage, ht]
  cases m.viaBot with
  | none => exact ⟨_, rfl, rfl⟩
  | some vb =>
    cases hb : vb.isBot <;>
      simp [hb, newChatAssistantMessage, newChatUserMessage]

/-- The conversion of a message yields at most two chat messages. -/
theorem chatMessages_length_le_two (env : Env) (m : Message) :
    (chatMessagesFromTGMessage env m).length ≤ 2 := by
  unfold chatMessagesFromTGMessage
  cases hr : repliedToMessage m with
  | none => cases hm : convertMessage env m <;> simp [hm]
  | some r =>
    cases hc : convertMessage env r <;> cases hm : convertMessage env m <;> simp [hc, hm]

/- ------------------------------------------------------------------ -/
/- Concrete fixtures for witnesses and counterexamples                 -/
/- ------------------------------------------------------------------ -/

def userW : User := { id := 1, username := some "user1", firstName := "U", isBot := false }

def userNoName : User := { id := 2, username := none, firstName := "N", isBot := false }

def userOther : User := { id := 3, username := some "other", firstName := "O", isBot := false }

def msgOf (u : User) (t : Option String) : Message :=
  Message.mk 10 { id := 100 } u none t none none

def updOf (m : Message) : Update := { message := some m, editedMessage := none }

def msgW : Message := msgOf userW (some "hello")

def updW : Update := updOf msgW

def msgNoU : Message := msgOf userNoName (some "hi")

def updNoU : Update := updOf msgNoU

def msgOther : Message := Message.mk 12 { id := 100 } userOther none (some "hey") none none

def updOther : Update := updOf msgOther

/-- A message with neither text nor document (a photo, say). -/
def msgEmpty : Message := msgOf userW none

def updEmpty : Update := updOf msgEmpty

def respW : ChatCompletion :=
  { choices := [{ message := { role := ChatRole.assistant, content := some "hi there" } }],
    usage := { promptTokens := 5, completionTokens := 7 } }

def envW : Env :=
  { getDocumentText := fun _ => Except.error "no doc",
    createChatCompletion := fun _ _ _ => Except.ok respW,
    sendMessageOk := fun _ _ _ => true,
    sendDocumentOk := fun _ _ _ _ => true,
    encode := fun s => Except.ok (List.replicate s.length 1),
    tokenizerReady := true }

def confW : Config :=
  { telegramBotToken := "t", openAIAPIKey := "k", openAIOrganizationID := "",
    openAIModel := "", requestLogsDBFilepath := "", allowedTelegramUsers := ["user1"],
    verbose := false }

/-- Environment where every SendMessage call fails (res.Ok = false). -/
def envFail : Env := { envW with sendMessageOk := fun _ _ _ => false }

/-- An answer of 2049 two-byte characters: 4098 UTF-8 bytes, 2049 chars. -/
def bigAns : String := String.mk (List.replicate 2049 (Char.ofNat 233))

def respBig : ChatCompletion :=
  { choices := [{ message := { role := ChatRole.assistant, content := some bigAns } }],
    usage := { promptTokens := 5, completionTokens := 7 } }

def envBig : Env := { envW with createChatCompletion := fun _ _ _ => Except.ok respBig }

/-- The caption the code builds for `bigAns`. -/
def capBig : String := String.mk (utf8Sanitize ((strBytes bigAns).take 128)) ++ "..."

def parentW : Message := msgOf userW (some "A")

def childW : Message := Message.mk 11 { id := 100 } userW none (some "B") none (some parentW)

/-- A one-character, two-byte string (U+00E9). -/
def twoByteStr : String := String.mk [Char.ofNat 233]

/- ------------------------------------------------------------------ -/
/- Claims                                                              -/
/- ------------------------------------------------------------------ -/

/-- Claim C1 (amended): for every inbound update whose sender handle, taken
    as the empty string when absent, is not a member of the allow-list set,
    both the message handler and the polling fallback reject the update:
    their only effect is the log line, so no completion-API call and no
    reply to the chat. -/
theorem c1_reject_unallowed (env : Env) (conf : Config) (dbEnabled : Bool)
    (allowedUsers : List String) (update : Update) (message : Message)
    (h : allowedUsers.contains (updateUsername update) = false) :
    onMessage env conf dbEnabled allowedUsers update message =
      [Effect.logPrint ("message not allowed: " ++ userNameFromUpdate update)] ∧
    onPollingUpdate env conf allowedUsers update none =
      [Effect.logPrint ("not allowed: " ++ userNameFromUpdate update)] := by
  have hmem : updateUsername update ∉ allowedUsers := by simpa using h
  constructor <;> simp [onMessage, onPollingUpdate, isAllowed, hmem]

/-- Witness for claim C1: a sender with handle "other" against allow-list
    ["user1"] is rejected with only the log effect. -/
theorem c1_reject_unallowed_witness :
    onMessage envW confW false ["user1"] updOther msgOther =
      [Effect.logPrint ("message not allowed: " ++ userNameFromUpdate updOther)] ∧
    onPollingUpdate envW confW ["user1"] updOther none =
      [Effect.logPrint ("not allowed: " ++ userNameFromUpdate updOther)] :=
  c1_reject_unallowed envW confW false ["user1"] updOther msgOther (by decide)

/-- Counterexample to claim C1 as stated: when the configured allow-list
    contains the empty string, an update whose sender has no username is
    accepted, the completion API is called and a reply is sent, contrary to
    "absent handle implies reject". -/
theorem c1_counterexample :
    (updNoU.message.bind fun m => m.fromUser.username) = none ∧
    (onMessage envW confW false [""] updNoU msgNoU).any isCompletionCall = true ∧
    (onMessage envW confW false [""] updNoU msgNoU).any isReplyEffect = true :=
  ⟨rfl, by decide, by decide⟩

/-- Claim C2 (amended): for every answer the completion client produces, if
    its UTF-8 byte length is at most 4096 it is sent as an ordinary inline
    reply referencing the original message id (and no document is sent);
    if its byte length exceeds 4096 it is sent as a document whose caption
    is the sanitized first 128 bytes of the answer followed by "...", a
    caption of at most 131 characters. -/
theorem c2_reply_dispatch (env : Env) (conf : Config) (dbEnabled : Bool)
    (messages : List ChatMessage) (chatID userID messageID : Int) (username : String)
    (resp : ChatCompletion) (r : ChatRole) (ans : String)
    (hc : env.createChatCompletion
        (if conf.openAIModel = "" then chatCompletionModelDefault else conf.openAIModel)
        messages (userAgent userID) = Except.ok resp)
    (hch : resp.choices = [⟨⟨r, some ans⟩⟩]) :
    (goLen ans ≤ 4096 →
      Effect.sendMessage chatID ans (some messageID) ∈
        answer env conf dbEnabled messages chatID userID username messageID ∧
      docCaptions (answer env conf dbEnabled messages chatID userID username messageID) = []) ∧
    (goLen ans > 4096 →
      Effect.sendDocument chatID ans (some messageID)
          (some (String.mk (utf8Sanitize ((strBytes ans).take 128)) ++ "...")) ∈
        answer env conf dbEnabled messages chatID userID username messageID ∧
      (String.mk (utf8Sanitize ((strBytes ans).take 128)) ++ "...").length ≤ 131) := by
  constructor
  · intro hle
    have hnot : ¬ goLen ans > 4096 := by omega
    constructor
    · simp only [answer, hc, hch]
      simp only [Option.getD_some, hnot, if_false, ite_false]
      simp [List.mem_append]
    · simp only [answer, hc, hch, docCaptions]
      simp only [Option.getD_some, hnot, ite_false]
      simp only [List.filterMap_append]
      split <;> split <;> simp [send, savePromptAndResult, List.filterMap_append] <;>
        split <;> simp
      all_goals rintro a (⟨-, rfl⟩ | rfl) <;> rfl
  · intro hgt
    constructor
    · simp only [answer, hc, hch]
      simp only [Option.getD_some, hgt, ite_true, if_true]
      simp [List.mem_append]
    · have h1 : (utf8Sanitize ((strBytes ans).take 128)).length ≤ 128 :=
        le_trans (utf8Sanitize_length_le _) (by simp)
      have h2 : (String.mk (utf8Sanitize ((strBytes ans).take 128)) ++ "...").length =
          (utf8Sanitize ((strBytes ans).take 128)).length + 3 := by
        rw [String.length_append]
        rfl
      omega

/-- Witness for claim C2: the short answer "hi there" exercises the inline
    branch of the dispatch theorem. -/
theorem c2_reply_dispatch_witness :
    (goLen "hi there" ≤ 4096 →
      Effect.sendMessage 100 "hi there" (some 10) ∈
        answer envW confW false [newChatUserMessage "q"] 100 1 "u" 10 ∧
      docCaptions (answer envW confW false [newChatUserMessage "q"] 100 1 "u" 10) = []) ∧
    (goLen "hi there" > 4096 →
      Effect.sendDocument 100 "hi there" (some 10)
          (some (String.mk (utf8Sanitize ((strBytes "hi there").take 128)) ++ "...")) ∈
        answer envW confW false [newChatUserMessage "q"] 100 1 "u" 10 ∧
      (String.mk (utf8Sanitize ((strBytes "hi there").take 128)) ++ "...").length ≤ 131) :=
  c2_reply_dispatch envW confW false [newChatUserMessage "q"] 100 1 10 "u" respW
    ChatRole.assistant "hi there" rfl rfl

/-- The byte length of the 2049-character two-byte answer is 4098,
    computed through length lemmas rather than deep evaluation. -/
theorem goLen_bigAns : goLen bigAns = 4098 := by
  have hb : charUTF8Bytes (Char.ofNat 233) = [195, 169] := by decide
  show ((List.replicate 2049 (Char.ofNat 233)).map charUTF8Bytes).flatten.length = 4098
  rw [List.map_replicate, hb, List.length_flatten, List.map_replicate]
  rw [List.sum_replicate]
  norm_num

set_option maxRecDepth 4000 in
/-- Counterexample to claim C2 as stated: an answer of 2049 two-byte
    characters has character length 2049 (at most 4096) yet is NOT sent as
    an inline reply, and the caption of the document that is sent instead
    is the sanitized first 128 BYTES plus "...", not the first 128
    characters plus "...". -/
theorem c2_counterexample :
    bigAns.length ≤ 4096 ∧
    goLen bigAns > 4096 ∧
    docCaptions (answer envBig confW false [newChatUserMessage "q"] 100 1 "u" 10) =
      [some capBig] ∧
    capBig ≠ String.mk (bigAns.data.take 128) ++ "..." :=
  ⟨by show (List.replicate 2049 (Char.ofNat 233)).length ≤ 4096
      rw [List.length_replicate]
      norm_num,
   by rw [goLen_bigAns]; norm_num,
   docCaptions_answer_long envBig confW false [newChatUserMessage "q"] 100 1 10 "u" respBig
     ChatRole.assistant bigAns rfl rfl (by rw [goLen_bigAns]; norm_num),
   by decide⟩

/-- Claim C3: when a message replies to a parent and both carry text, the
    conversion yields exactly the converted parent followed by the
    converted child, each carrying its text as content; and every
    conversion yields at most two entries. -/
theorem c3_reply_chain (env : Env) (parent message : Message) (a b : String)
    (hreply : message.replyToMessage = some parent)
    (hp : parent.text = some a) (hb : message.text = some b) :
    (∃ cp cc, convertMessage env parent = some cp ∧ convertMessage env message = some cc ∧
       cp.content = some a ∧ cc.content = some b ∧
       chatMessagesFromTGMessage env message = [cp, cc]) ∧
    ∀ m : Message, (chatMessagesFromTGMessage env m).length ≤ 2 := by
  refine ⟨?_, fun m => chatMessages_length_le_two env m⟩
  obtain ⟨cp, hcp, hcpc⟩ := convertMessage_of_text env parent a hp
  obtain ⟨cc, hcc, hccc⟩ := convertMessage_of_text env message b hb
  refine ⟨cp, cc, hcp, hcc, hcpc, hccc, ?_⟩
  unfold chatMessagesFromTGMessage repliedToMessage
  rw [hreply]
  simp [hcp, hcc]

/-- Witness for claim C3: parent "A", child "B". -/
theorem c3_reply_chain_witness :
    (∃ cp cc, convertMessage envW parentW = some cp ∧ convertMessage envW childW = some cc ∧
       cp.content = some "A" ∧ cc.content = some "B" ∧
       chatMessagesFromTGMessage envW childW = [cp, cc]) ∧
    ∀ m : Message, (chatMessagesFromTGMessage envW m).length ≤ 2 :=
  c3_reply_chain envW parentW childW "A" "B" rfl rfl rfl

/-- Claim C4 (code bug): with the log store enabled, when the completion
    succeeds but the Telegram send fails, the code reaches Error() on the
    nil err value of the successful completion call and panics, so no
    prompt/result pair is saved for that completed request; on the
    delivered-success path exactly one pair is saved, successful and with
    the completion-token usage (7 here). -/
theorem c4_send_failure_loses_record :
    saveEffects (answer envFail confW true [newChatUserMessage "q"] 100 1 "u" 10) = [] ∧
    Effect.panicNilError ∈ answer envFail confW true [newChatUserMessage "q"] 100 1 "u" 10 ∧
    saveEffects (answer envW confW true [newChatUserMessage "q"] 100 1 "u" 10) =
      [{ chatID := 100, userID := 1, username := "u", text := "[user] q", tokens := 5,
         result := { successful := true, text := "hi there", tokens := 7 } }] :=
  ⟨by decide, by decide, by decide⟩

/-- Claim C5: when the conversion of the inbound message yields no chat
    message, the handler performs no completion-API call and sends the
    fixed conversion-failure notification to the sender. -/
theorem c5_empty_conversion (env : Env) (conf : Config) (dbEnabled : Bool) (update : Update)
    (message : Message)
    (h : chatMessagesFromTGMessage env message = []) :
    (handleMessage env conf dbEnabled update message).filter isCompletionCall = [] ∧
    Effect.sendMessage message.chat.id msgFailedConvert (some message.messageID) ∈
      handleMessage env conf dbEnabled update message := by
  constructor
  · simp [handleMessage, h, isCompletionCall, filter_completion_send]
  · simp [handleMessage, h, send]

/-- Witness for claim C5: a message with neither text nor document converts
    to nothing and triggers the failure notification. -/
theorem c5_empty_conversion_witness :
    (handleMessage envW confW false updEmpty msgEmpty).filter isCompletionCall = [] ∧
    Effect.sendMessage msgEmpty.chat.id msgFailedConvert (some msgEmpty.messageID) ∈
      handleMessage envW confW false updEmpty msgEmpty :=
  c5_empty_conversion envW confW false updEmpty msgEmpty rfl

/-- Claim C6 (code bug): with the log store enabled and no rows stored,
    retrieveStats returns the zero-count aggregate block, never the fixed
    "Database is empty." message (the aggregate COUNT/SUM queries succeed
    on an empty table, so the lines list is never empty); the
    not-configured message is returned when the store is disabled. -/
theorem c6_empty_db_stats :
    retrieveStats (some []) =
      "* Chats: <b>0</b>\n* Prompts: <b>0</b> (Total tokens: <b>0</b>)\n* Completions: <b>0</b> (Total tokens: <b>0</b>)\n* Errors: <b>0</b>" ∧
    retrieveStats (some []) ≠ msgDatabaseEmpty ∧
    retrieveStats none = msgDatabaseNotConfigured :=
  ⟨by decide, by decide, by decide⟩

/-- Claim C7 (amended): for every allowed update reaching the polling
    fallback, the unsupported-type reply is sent exactly when a usable
    message can be extracted; an update with neither usable text nor
    usable document yields no effect at all. -/
theorem c7_unsupported_reply (env : Env) (conf : Config) (allowedUsers : List String)
    (update : Update)
    (hallow : isAllowed update allowedUsers = true) :
    (usableMessageFromUpdate update = none →
      onPollingUpdate env conf allowedUsers update none = []) ∧
    ∀ m, usableMessageFromUpdate update = some m →
      Effect.sendMessage m.chat.id msgTypeNotSupported (some m.messageID) ∈
        onPollingUpdate env conf allowedUsers update none := by
  constructor
  · intro h
    simp [onPollingUpdate, hallow, h]
  · intro m h
    simp [onPollingUpdate, hallow, h, send]

/-- Witness for claim C7: an allowed update with a usable text message gets
    the unsupported-type reply from the fallback. -/
theorem c7_unsupported_reply_witness :
    (usableMessageFromUpdate updW = none →
      onPollingUpdate envW confW ["user1"] updW none = []) ∧
    ∀ m, usableMessageFromUpdate updW = some m →
      Effect.sendMessage m.chat.id msgTypeNotSupported (some m.messageID) ∈
        onPollingUpdate envW confW ["user1"] updW none :=
  c7_unsupported_reply envW confW ["user1"] updW (by decide)

/-- Counterexample to claim C7 as stated: an allowed update carrying
    neither usable text nor a usable document (a photo message) produces
    no effect at all in the fallback handler, in particular no
    "Not a supported message type." reply. -/
theorem c7_counterexample :
    isAllowed updEmpty ["user1"] = true ∧
    (usableMessageFromUpdate updEmpty).isNone = true ∧
    onPollingUpdate envW confW ["user1"] updEmpty none = [] :=
  ⟨by decide, rfl, by decide⟩

/-- Claim C8: the /count command with an argument that trims to the empty
    string succeeds, provided the tokenizer initialized and encodes the
    empty string to no tokens, and replies with a count of 0 tokens for 0
    input characters. -/
theorem c8_count_empty (env : Env) (conf : Config) (allowedUsers : List String)
    (update : Update) (message : Message) (text : String)
    (hready : env.tokenizerReady = true)
    (henc : env.encode "" = Except.ok [])
    (hallow : isAllowed update allowedUsers = true)
    (husable : usableMessageFromUpdate update = some message)
    (hargs : commandArgs text cmdCount = "") :
    Effect.sendMessage message.chat.id (msgTokenCountStr 0 0) (some message.messageID) ∈
      countCommandHandler env conf allowedUsers update (commandArgs text cmdCount) := by
  rw [hargs]
  have h0 : goLen "" = 0 := rfl
  simp [countCommandHandler, hallow, husable, countTokens, hready, henc, send, h0]

/-- Witness for claim C8: "/count   " trims to the empty argument and the
    reply reports 0 tokens in 0 chars. -/
theorem c8_count_empty_witness :
    Effect.sendMessage msgW.chat.id (msgTokenCountStr 0 0) (some msgW.messageID) ∈
      countCommandHandler envW confW ["user1"] updW (commandArgs "/count   " cmdCount) :=
  c8_count_empty envW confW ["user1"] updW msgW "/count   " rfl rfl (by decide) rfl (by decide)

/-- Claim C9: the allow-list check maps an absent sender username to the
    empty string before the lookup, so for an update whose sender has no
    username the check returns exactly whether the empty string is in the
    configured set. -/
theorem c9_absent_username (update : Update) (allowedUsers : List String)
    (h1 : update.message.bind (fun m => m.fromUser.username) = none)
    (h2 : update.editedMessage.bind (fun m => m.fromUser.username) = none) :
    isAllowed update allowedUsers = allowedUsers.contains "" := by
  unfold isAllowed updateUsername
  rw [h1, h2]

/-- Witness for claim C9: a username-less sender against the allow-list
    containing the empty string. -/
theorem c9_absent_username_witness :
    isAllowed updNoU [""] = List.contains [""] "" :=
  c9_absent_username updNoU [""] rfl rfl

/-- Claim C10: the /count reply reports the UTF-8 byte length of the
    argument as its character figure, and for the two-byte one-character
    input that figure (2) is strictly greater than the number of Unicode
    characters (1). -/
theorem c10_count_reports_bytes (env : Env) (conf : Config) (allowedUsers : List String)
    (update : Update) (message : Message) (toks : List Int)
    (hready : env.tokenizerReady = true)
    (henc : env.encode twoByteStr = Except.ok toks)
    (hallow : isAllowed update allowedUsers = true)
    (husable : usableMessageFromUpdate update = some message) :
    Effect.sendMessage message.chat.id (msgTokenCountStr toks.length (goLen twoByteStr))
        (some message.messageID) ∈
      countCommandHandler env conf allowedUsers update twoByteStr ∧
    goLen twoByteStr = 2 ∧ twoByteStr.length = 1 := by
  refine ⟨?_, by decide, by decide⟩
  simp [countCommandHandler, hallow, husable, countTokens, hready, henc, send]

/-- Witness for claim C10: the concrete handler run on the two-byte
    one-character argument. -/
theorem c10_count_reports_bytes_witness :
    Effect.sendMessage msgW.chat.id (msgTokenCountStr (List.length [(1 : Int)]) (goLen twoByteStr))
        (some msgW.messageID) ∈
      countCommandHandler envW confW ["user1"] updW twoByteStr ∧
    goLen twoByteStr = 2 ∧ twoByteStr.length = 1 :=
  c10_count_reports_bytes envW confW ["user1"] updW msgW [1] rfl rfl (by decide) rfl

end TgBot
